import Mathlib

/-!
Shallow embedding of the eBPF fast-path programs of `distributed-emunet`:
  * `src/node/emu-cni/tools/ebpf/ebpf-tc-c/tc_bpf.c` — delay/jitter stage
    (`inject_delay_jitter`, entry `delay_jitter`), loss + throttle stage
    (entry `loss_bps`, helper `throttle_flow`);
  * `src/emu-cni/tools/ebpf/ebpf-tc-c/header/maps.h` — flow key, impairment
    value and map capacities;
  * `src/emu-cni/tools/ebpf/ebpf-xdp-c/xdp_bpf.c` — L2 forwarding
    (`xdp_l2_fwd_prog`) with its `mac_table` and `tx_ports` maps.

Machine integers are modelled as `Nat` (unsigned C types); wherever an
arithmetic operation in the C can exceed its type width, the reduction
`% 2 ^ w` is applied explicitly.  Fallible map writes are modelled by a
boolean oracle saying whether `bpf_map_update_elem` succeeds.
-/

namespace EmuNet

/-- `#define NS_PER_SEC 1000000000` (tc_bpf.c). -/
def NS_PER_SEC : Nat := 1000000000

/-- `#define TIME_HORIZON_NS (2000 * 1000 * 1000)` (tc_bpf.c). -/
def TIME_HORIZON_NS : Nat := 2000 * 1000 * 1000

/-- `#define NS_PER_0_0_1_MS 10000` (tc_bpf.c). -/
def NS_PER_0_0_1_MS : Nat := 10000

/-- `#define PKT_LOSS_SCOPE 10000` (tc_bpf.c). -/
def PKT_LOSS_SCOPE : Nat := 10000

/-- Reduction of a `uint32_t` computation: C unsigned 32-bit arithmetic wraps. -/
def u32Mod (n : Nat) : Nat := n % 2 ^ 32

/-- Reduction of a `uint64_t` computation: C unsigned 64-bit arithmetic wraps. -/
def u64Mod (n : Nat) : Nat := n % 2 ^ 64

/-- `uint64_t` subtraction `a - b` for already-reduced operands, with wraparound. -/
def u64Sub (a b : Nat) : Nat := (2 ^ 64 + a % 2 ^ 64 - b % 2 ^ 64) % 2 ^ 64

/-- Conversion of a (possibly negative) mathematical integer to the `uint64_t`
it becomes under C conversion rules (two's complement wraparound). -/
def u64OfInt (i : Int) : Nat := (i % (2 ^ 64 : Int)).toNat

/-- TC program verdicts used by tc_bpf.c: `TC_ACT_OK` (continue) and
`TC_ACT_SHOT` (drop). -/
inductive TcAct
  | ok
  | shot
  deriving DecidableEq, Repr

/-- `struct flow_key` (maps.h): ingress interface index + source MAC address
(6 bytes, compared byte-exact). -/
structure FlowKey where
  ifindex : Nat
  src_mac : List Nat
  deriving DecidableEq, Repr

/-- `struct handle_emu` (maps.h): the four `__u32` impairment parameters. -/
structure HandleEmu where
  throttle_rate_bps : Nat
  delay : Nat
  loss_rate : Nat
  jitter : Nat
  deriving DecidableEq, Repr

/-- The fields of `struct __sk_buff` the tc programs read or write:
packet length (`__u32 len`), scheduled-departure timestamp
(`__u64 tstamp`) and ingress interface (`__u32 ifindex`). -/
structure Skb where
  len : Nat
  tstamp : Nat
  ifindex : Nat
  deriving DecidableEq, Repr

/-- `__uint(max_entries, 65535)` of map `MAC_HANDLE_EMU` (maps.h). -/
def MAC_HANDLE_EMU_max_entries : Nat := 65535

/-- `__uint(max_entries, 65535)` of map `flow_map` (maps.h). -/
def flow_map_max_entries : Nat := 65535

/-- `__uint(max_entries, 65535)` of map `mac_table` (xdp_bpf.c), the
destination-MAC → egress-ifindex forwarding table used by `xdp_l2_fwd_prog`. -/
def mac_table_max_entries : Nat := 65535

/-- `__uint(max_entries, 1024)` of devmap `tx_ports` (xdp_bpf.c), the egress
port set used for redirect/broadcast. -/
def tx_ports_max_entries : Nat := 1024

/-- `__uint(max_entries, 1024)` of map `fdb_map`
(ebpf-xdp-c/header/maps.h); declared there but not referenced by
`xdp_l2_fwd_prog`, which defines and uses its own `mac_table`. -/
def fdb_map_max_entries : Nat := 1024

/-- Modelled from the spec: `parse_ethhdr` lives in
`header/helpers.h`, which is not part of the repository sources; per spec
§7(a) a malformed/truncated packet header is detected (and the packet
dropped) before any table lookup.  An ethernet header is 14 bytes, so the
parse succeeds exactly when the packet holds at least 14 bytes. -/
def parse_ethhdr_ok (pkt : List Nat) : Bool := 14 ≤ pkt.length

/-- `eth->h_source`: bytes 6..11 of the packet. -/
def ethSource (pkt : List Nat) : List Nat := (pkt.drop 6).take 6

/-- `eth->h_dest`: bytes 0..5 of the packet. -/
def ethDest (pkt : List Nat) : List Nat := pkt.take 6

/-- Result of a tc-stage run: the verdict, the final `skb->tstamp`, and the
final contents of `flow_map` (the pacing table). -/
structure TcResult where
  act : TcAct
  skb_tstamp : Nat
  flow_map : FlowKey → Option Nat

/-- The unit conversion `(*delay) * NS_PER_0_0_1_MS` of tc_bpf.c lines 27/29
(0.01 ms → ns): it multiplies `uint32_t` by `int`; the usual arithmetic
conversions perform it in 32-bit unsigned arithmetic, hence the `u32Mod`,
before the result widens to `uint64_t`. -/
def fixedToNs (x : Nat) : Nat := u32Mod (x * NS_PER_0_0_1_MS)

/-- The random jitter draw of tc_bpf.c lines 33–39:
`random_jitter = (int64_t)(rand % (2 * jitter_ns + 1)) - jitter_ns`, and 0
when `jitter_ns == 0`.  The C expression is mathematically
`rand % (2*jitter_ns+1) - jitter_ns` as an integer: both operands are
below `2 ^ 33 < 2 ^ 63`, so the intermediate `uint64_t` wraparound and the
conversion back to `int64_t` are the identity on the represented value. -/
def jitterOffset (jitter rand : Nat) : Int :=
  let jitter_ns := fixedToNs jitter
  if jitter_ns > 0 then
    (rand % (2 * jitter_ns + 1) : Int) - (jitter_ns : Int)
  else 0

/-- `inject_delay_jitter` (tc_bpf.c lines 22–54).
`delay` and `jitter` are the `__u32` values from the impairment entry,
`now` the value of `bpf_ktime_get_ns()`, `rand` that of
`bpf_get_prandom_u32()` (a `__u32`).  Returns the new `skb->tstamp`
(the function always returns `TC_ACT_OK`): base is `now` when the current
timestamp is 0, else the current timestamp.  `new_ts` adds the signed
`random_jitter` to a `uint64_t`; C converts the signed addend, which is
the two's-complement wraparound captured by `u64OfInt`. -/
def inject_delay_jitter (ts delay jitter now rand : Nat) : Nat :=
  if ts = 0 then
    u64OfInt ((now : Int) + (fixedToNs delay : Int) + jitterOffset jitter rand)
  else
    u64OfInt ((ts : Int) + (fixedToNs delay : Int) + jitterOffset jitter rand)

/-- `delay_jitter` (tc_bpf.c lines 61–110): parse the ethernet header, build
the composite flow key, look up `MAC_HANDLE_EMU`, and if an entry exists
call `inject_delay_jitter`.  The checks `if (!delay)` / `if (!jitter)` in
the C test pointers to fields of the non-null `val_struct` and can never
fire; they are not modelled.  The stage never touches `flow_map`. -/
def delay_jitter (pkt : List Nat) (skb : Skb)
    (mac_handle : FlowKey → Option HandleEmu)
    (flow_map : FlowKey → Option Nat) (now rand : Nat) : TcResult :=
  if parse_ethhdr_ok pkt then
    match mac_handle ⟨skb.ifindex, ethSource pkt⟩ with
    | none => { act := .ok, skb_tstamp := skb.tstamp, flow_map := flow_map }
    | some v =>
        { act := .ok,
          skb_tstamp := inject_delay_jitter skb.tstamp v.delay v.jitter now rand,
          flow_map := flow_map }
  else
    { act := .shot, skb_tstamp := skb.tstamp, flow_map := flow_map }

/-- `bpf_map_update_elem(&flow_map, key, &v, BPF_ANY)` on success: point
update of the pacing table. -/
def mapUpd (m : FlowKey → Option Nat) (key : FlowKey) (v : Nat) :
    FlowKey → Option Nat :=
  fun k => if k = key then some v else m k

/-- `uint64_t delay_ns = ((uint64_t)skb->len) * 8 * NS_PER_SEC / *throttle_rate_bps`
(tc_bpf.c line 117): `uint64_t` multiplication (wrapping) followed by
`uint64_t` division.  Lean's `Nat` division truncates toward zero like C
unsigned division; for a zero rate the BPF runtime defines the quotient
as 0, which `Nat` division also yields (in C this line is undefined for
`*throttle_rate_bps == 0` — nothing in `loss_bps` prevents reaching it). -/
def throttleDelayNs (len rate : Nat) : Nat := u64Mod (len * 8 * NS_PER_SEC) / rate

/-- `if (tstamp < now) tstamp = now;` (tc_bpf.c lines 120–124): the pacing
base is the packet timestamp clamped up to `now`. -/
def throttleBase (skb_tstamp now : Nat) : Nat :=
  if skb_tstamp < now then now else skb_tstamp

/-- `next_tstamp` (tc_bpf.c lines 126–133): previous stored timestamp plus the
transmission duration, or, for the first packet of the flow, the clamped
base plus the duration. -/
def throttleNext (last : Option Nat) (base delay_ns : Nat) : Nat :=
  match last with
  | some l => u64Mod (l + delay_ns)
  | none => u64Mod (base + delay_ns)

/-- `throttle_flow` (tc_bpf.c lines 112–160).  `update_ok` is the oracle for
the single `bpf_map_update_elem` call the run performs (true = the call
returns 0).  In the no-backlog branch (line 141) the C ignores the call's
return value, so a failed write leaves the map unchanged but the verdict
stays `TC_ACT_OK`; in the backlog branch (lines 152–153) a failed write
returns `TC_ACT_SHOT`.  A failing `bpf_map_update_elem` does not modify
the map. -/
def throttle_flow (skb : Skb) (key : FlowKey) (throttle_rate_bps now : Nat)
    (flow_map : FlowKey → Option Nat) (update_ok : Bool) : TcResult :=
  if throttleNext (flow_map key) (throttleBase skb.tstamp now)
      (throttleDelayNs skb.len throttle_rate_bps) ≤ throttleBase skb.tstamp now then
    { act := .ok, skb_tstamp := skb.tstamp,
      flow_map := if update_ok then
          mapUpd flow_map key
            (u64Mod (throttleBase skb.tstamp now +
              throttleDelayNs skb.len throttle_rate_bps))
        else flow_map }
  else if TIME_HORIZON_NS ≤
      u64Sub (throttleNext (flow_map key) (throttleBase skb.tstamp now)
        (throttleDelayNs skb.len throttle_rate_bps)) now then
    { act := .shot, skb_tstamp := skb.tstamp, flow_map := flow_map }
  else if update_ok then
    { act := .ok,
      skb_tstamp := throttleNext (flow_map key) (throttleBase skb.tstamp now)
        (throttleDelayNs skb.len throttle_rate_bps),
      flow_map := mapUpd flow_map key
        (throttleNext (flow_map key) (throttleBase skb.tstamp now)
          (throttleDelayNs skb.len throttle_rate_bps)) }
  else
    { act := .shot, skb_tstamp := skb.tstamp, flow_map := flow_map }

/-- The loss decision of `loss_bps` (tc_bpf.c lines 199–207): when
`loss_rate > 0`, draw `rand % PKT_LOSS_SCOPE` and drop when the draw is
below `loss_rate`. -/
def loss_drop (loss_rate rand : Nat) : Bool :=
  loss_rate > 0 && rand % PKT_LOSS_SCOPE < loss_rate

/-- `loss_bps` (tc_bpf.c lines 163–219): parse the ethernet header, look up
the impairment entry by (ifindex, source MAC); continue if absent;
apply the loss decision; then call `throttle_flow`.  The C guard
`if (!throttle_rate_bps)` before that call tests a pointer to a field of
the non-null `val_struct` — it can never fire (in particular it does not
test the rate value), so `throttle_flow` is reached unconditionally. -/
def loss_bps (pkt : List Nat) (skb : Skb)
    (mac_handle : FlowKey → Option HandleEmu)
    (flow_map : FlowKey → Option Nat)
    (now rand_loss : Nat) (update_ok : Bool) : TcResult :=
  if parse_ethhdr_ok pkt then
    match mac_handle ⟨skb.ifindex, ethSource pkt⟩ with
    | none => { act := .ok, skb_tstamp := skb.tstamp, flow_map := flow_map }
    | some v =>
        if loss_drop v.loss_rate rand_loss then
          { act := .shot, skb_tstamp := skb.tstamp, flow_map := flow_map }
        else
          throttle_flow skb ⟨skb.ifindex, ethSource pkt⟩ v.throttle_rate_bps
            now flow_map update_ok
  else
    { act := .shot, skb_tstamp := skb.tstamp, flow_map := flow_map }

/-- The per-packet impairment pipeline in stage order (spec §2:
DelayJitter → Loss → Throttle): `delay_jitter` runs first; if it does not
drop, `loss_bps` runs on the re-stamped packet. -/
def tcPipeline (pkt : List Nat) (skb : Skb)
    (mac_handle : FlowKey → Option HandleEmu)
    (flow_map : FlowKey → Option Nat)
    (now rand_jitter rand_loss : Nat) (update_ok : Bool) : TcResult :=
  match delay_jitter pkt skb mac_handle flow_map now rand_jitter with
  | ⟨.shot, t, fm⟩ => ⟨.shot, t, fm⟩
  | ⟨.ok, t, fm⟩ =>
      loss_bps pkt { skb with tstamp := t } mac_handle fm now rand_loss update_ok

/-- Disposition of `xdp_l2_fwd_prog`: `XDP_DROP`, the broadcast redirect
(`bpf_redirect_map(&tx_ports, 0, BPF_F_BROADCAST | BPF_F_EXCLUDE_INGRESS)`),
the unicast redirect (`bpf_redirect_map(&tx_ports, ifindex, 0)`), or
`XDP_PASS` (hand to the kernel stack). -/
inductive XdpAction
  | drop
  | floodExcludeIngress
  | redirect (ifindex : Nat)
  | pass
  deriving DecidableEq, Repr

/-- `xdp_l2_fwd_prog` (xdp_bpf.c lines 57–102): bounds-check the ethernet
header (`(void *)(eth + 1) > data_end` — the packet must hold at least the
14-byte header); flood when the low-order bit of the first destination
byte is set (`eth->h_dest[0] & 1`); otherwise look up the destination MAC
in `mac_table` and redirect to the stored ifindex, falling back to
`XDP_PASS` when absent. -/
def xdp_l2_fwd_prog (pkt : List Nat) (mac_table : List Nat → Option Nat) :
    XdpAction :=
  if pkt.length < 14 then .drop
  else if pkt.headD 0 % 2 = 1 then .floodExcludeIngress
  else
    match mac_table (ethDest pkt) with
    | some dest_ifindex => .redirect dest_ifindex
    | none => .pass

/-- Modelled from the spec: the delivery set of the kernel helper
`bpf_redirect_map` under `BPF_F_BROADCAST | BPF_F_EXCLUDE_INGRESS` (the
helper is not repository code) — spec §4.4: "deliver to every interface in
EgressPortSet except the ingress interface". -/
def floodTargets (tx_ports : List Nat) (ingress : Nat) : List Nat :=
  tx_ports.filter (fun p => p ≠ ingress)

/-- The impairment table of the concrete scenario of spec §8: interface 3,
source MAC AA:BB:CC:DD:EE:FF, rate 1,000,000 bps, delay 100 (= 1 ms),
loss 0, jitter 0. -/
def scenarioHandles : FlowKey → Option HandleEmu :=
  fun k =>
    if k = ⟨3, [170, 187, 204, 221, 238, 255]⟩ then
      some ⟨1000000, 100, 0, 0⟩
    else none

/-- A 14-byte frame whose source MAC (bytes 6..11) is AA:BB:CC:DD:EE:FF. -/
def scenarioPkt : List Nat :=
  [0, 0, 0, 0, 0, 0, 170, 187, 204, 221, 238, 255, 0, 0]

/-! ## Helper lemmas -/

theorem two_pow_64_eq : (2 : Nat) ^ 64 = 18446744073709551616 := by norm_num

theorem u64Mod_eq_of_lt {n : Nat} (h : n < 2 ^ 64) : u64Mod n = n :=
  Nat.mod_eq_of_lt h

theorem u64Sub_eq_sub {a b : Nat} (hba : b ≤ a) (ha : a < 2 ^ 64) :
    u64Sub a b = a - b := by
  unfold u64Sub
  rw [Nat.mod_eq_of_lt ha, Nat.mod_eq_of_lt (lt_of_le_of_lt hba ha)]
  rw [two_pow_64_eq] at ha ⊢
  omega

theorem u64OfInt_eq {i : Int} (h0 : 0 ≤ i) (h1 : i < 2 ^ 64) :
    (u64OfInt i : Int) = i := by
  unfold u64OfInt
  rw [Int.emod_eq_of_lt h0 h1]
  exact Int.toNat_of_nonneg h0

theorem jitterOffset_bounds (jitter rand : Nat) :
    -(fixedToNs jitter : Int) ≤ jitterOffset jitter rand ∧
      jitterOffset jitter rand ≤ (fixedToNs jitter : Int) := by
  unfold jitterOffset
  by_cases h : fixedToNs jitter > 0
  · simp only [h, if_true]
    have hm : (0 : Int) < 2 * (fixedToNs jitter : Int) + 1 := by positivity
    have h1 : (0 : Int) ≤ (rand : Int) % (2 * (fixedToNs jitter : Int) + 1) :=
      Int.emod_nonneg _ (by omega)
    have h2 : (rand : Int) % (2 * (fixedToNs jitter : Int) + 1) <
        2 * (fixedToNs jitter : Int) + 1 := Int.emod_lt_of_pos _ hm
    constructor <;> omega
  · simp only [h, if_false]
    simp only [Nat.not_lt, Nat.le_zero] at h
    simp [h]

/-- The new timestamp computed by `inject_delay_jitter`, as an integer, when
no `uint64_t` wraparound occurs: base (`now` for an unset timestamp, the
current timestamp otherwise) plus delay plus jitter offset. -/
theorem inject_delay_jitter_eq (ts delay jitter now rand : Nat)
    (h1 : (fixedToNs jitter : Int) ≤
      (if ts = 0 then (now : Int) else (ts : Int)) + (fixedToNs delay : Int))
    (h2 : (if ts = 0 then (now : Int) else (ts : Int)) + (fixedToNs delay : Int)
      + (fixedToNs jitter : Int) < 2 ^ 64) :
    (inject_delay_jitter ts delay jitter now rand : Int) =
      (if ts = 0 then (now : Int) else (ts : Int)) + (fixedToNs delay : Int)
        + jitterOffset jitter rand := by
  obtain ⟨hl, hr⟩ := jitterOffset_bounds jitter rand
  unfold inject_delay_jitter
  by_cases h : ts = 0 <;>
    simp only [h, if_true, if_false, if_pos, if_neg, ne_eq, not_false_iff] <;>
    simp only [h, if_true, if_false] at h1 h2 <;>
    exact u64OfInt_eq (by omega) (by omega)

theorem u64OfInt_natCast (n : Nat) (h : n < 2 ^ 64) : u64OfInt (n : Int) = n := by
  unfold u64OfInt
  rw [Int.emod_eq_of_lt (Int.natCast_nonneg n) (by exact_mod_cast h)]
  simp

theorem inject_zero_jitter_delay100 (now rand : Nat)
    (h : now + 1000000 < 2 ^ 64) :
    inject_delay_jitter 0 100 0 now rand = now + 1000000 := by
  have hj : jitterOffset 0 rand = 0 := by
    norm_num [jitterOffset, fixedToNs, u32Mod, NS_PER_0_0_1_MS]
  have hd : fixedToNs 100 = 1000000 := by decide
  unfold inject_delay_jitter
  rw [if_pos rfl, hj, hd]
  have hcast : ((now : Int) + (((1000000 : Nat) : Int)) + 0) =
      ((now + 1000000 : Nat) : Int) := by
    push_cast
    ring
  rw [hcast, u64OfInt_natCast _ h]

theorem throttle_flow_backlog_ok (skb : Skb) (key : FlowKey) (rate now : Nat)
    (fm : FlowKey → Option Nat)
    (hb : throttleBase skb.tstamp now <
      throttleNext (fm key) (throttleBase skb.tstamp now)
        (throttleDelayNs skb.len rate))
    (hh : u64Sub (throttleNext (fm key) (throttleBase skb.tstamp now)
        (throttleDelayNs skb.len rate)) now < TIME_HORIZON_NS) :
    throttle_flow skb key rate now fm true =
      ⟨TcAct.ok,
        throttleNext (fm key) (throttleBase skb.tstamp now)
          (throttleDelayNs skb.len rate),
        mapUpd fm key (throttleNext (fm key) (throttleBase skb.tstamp now)
          (throttleDelayNs skb.len rate))⟩ := by
  unfold throttle_flow
  rw [if_neg (by omega), if_neg (by omega)]
  rfl

theorem throttle_flow_horizon_shot (skb : Skb) (key : FlowKey) (rate now : Nat)
    (fm : FlowKey → Option Nat) (upd : Bool)
    (hb : throttleBase skb.tstamp now <
      throttleNext (fm key) (throttleBase skb.tstamp now)
        (throttleDelayNs skb.len rate))
    (hh : TIME_HORIZON_NS ≤
      u64Sub (throttleNext (fm key) (throttleBase skb.tstamp now)
        (throttleDelayNs skb.len rate)) now) :
    throttle_flow skb key rate now fm upd = ⟨TcAct.shot, skb.tstamp, fm⟩ := by
  unfold throttle_flow
  rw [if_neg (by omega), if_pos hh]

theorem throttle_flow_nobacklog_ok (skb : Skb) (key : FlowKey) (rate now : Nat)
    (fm : FlowKey → Option Nat)
    (hnb : throttleNext (fm key) (throttleBase skb.tstamp now)
        (throttleDelayNs skb.len rate) ≤ throttleBase skb.tstamp now) :
    throttle_flow skb key rate now fm true =
      ⟨TcAct.ok, skb.tstamp,
        mapUpd fm key (u64Mod (throttleBase skb.tstamp now +
          throttleDelayNs skb.len rate))⟩ := by
  unfold throttle_flow
  rw [if_pos hnb]
  rfl

theorem scenario_delay_stage (now rand : Nat) (fm : FlowKey → Option Nat)
    (h : now + 1000000 < 2 ^ 64) :
    delay_jitter scenarioPkt ⟨1500, 0, 3⟩ scenarioHandles fm now rand =
      ⟨TcAct.ok, now + 1000000, fm⟩ := by
  have hs : scenarioHandles ⟨3, ethSource scenarioPkt⟩ =
      some ⟨1000000, 100, 0, 0⟩ := by decide
  unfold delay_jitter
  rw [if_pos (by decide)]
  dsimp only []
  rw [hs]
  dsimp only []
  rw [inject_zero_jitter_delay100 now rand h]

theorem scenario_loss_stage (tstamp now rand : Nat) (fm : FlowKey → Option Nat)
    (upd : Bool) :
    loss_bps scenarioPkt ⟨1500, tstamp, 3⟩ scenarioHandles fm now rand upd =
      throttle_flow ⟨1500, tstamp, 3⟩ ⟨3, [170, 187, 204, 221, 238, 255]⟩
        1000000 now fm upd := by
  have hs : scenarioHandles ⟨3, ethSource scenarioPkt⟩ =
      some ⟨1000000, 100, 0, 0⟩ := by decide
  have he : ethSource scenarioPkt = [170, 187, 204, 221, 238, 255] := by decide
  have hld : loss_drop 0 rand = false := by simp [loss_drop]
  unfold loss_bps
  rw [if_pos (by decide)]
  dsimp only []
  rw [hs]
  dsimp only []
  rw [if_neg (by simp [hld]), he]

theorem scenario_first (now1 rand1 rand2 : Nat)
    (h1 : now1 + 25000000 < 2 ^ 64) :
    tcPipeline scenarioPkt ⟨1500, 0, 3⟩ scenarioHandles (fun _ => none)
        now1 rand1 rand2 true =
      ⟨TcAct.ok, now1 + 13000000,
        mapUpd (fun _ => none) ⟨3, [170, 187, 204, 221, 238, 255]⟩
          (now1 + 13000000)⟩ := by
  have hdel : throttleDelayNs 1500 1000000 = 12000000 := by decide
  have hb2 : throttleBase (now1 + 1000000) now1 = now1 + 1000000 := by
    unfold throttleBase
    rw [if_neg (by omega)]
  have hnext : throttleNext (none : Option Nat)
      (throttleBase (now1 + 1000000) now1) (throttleDelayNs 1500 1000000) =
      now1 + 13000000 := by
    show u64Mod (throttleBase (now1 + 1000000) now1 +
      throttleDelayNs 1500 1000000) = now1 + 13000000
    rw [hb2, hdel]
    unfold u64Mod
    omega
  have hb : throttleBase (now1 + 1000000) now1 <
      throttleNext (none : Option Nat)
      (throttleBase (now1 + 1000000) now1) (throttleDelayNs 1500 1000000) := by
    rw [hnext, hb2]
    omega
  have hh : u64Sub (throttleNext (none : Option Nat)
      (throttleBase (now1 + 1000000) now1) (throttleDelayNs 1500 1000000))
      now1 < TIME_HORIZON_NS := by
    rw [hnext]
    unfold u64Sub TIME_HORIZON_NS
    omega
  unfold tcPipeline
  rw [scenario_delay_stage now1 rand1 (fun _ => none) (by omega)]
  dsimp only []
  rw [scenario_loss_stage (now1 + 1000000) now1 rand2 (fun _ => none) true]
  rw [throttle_flow_backlog_ok ⟨1500, now1 + 1000000, 3⟩
    ⟨3, [170, 187, 204, 221, 238, 255]⟩ 1000000 now1 (fun _ => none) hb hh]
  dsimp only []
  rw [hnext]

theorem scenario_second (now1 now2 rand3 rand4 : Nat)
    (h1 : now1 + 25000000 < 2 ^ 64) (h2 : now2 + 13000000 < 2 ^ 64)
    (hok : (tcPipeline scenarioPkt ⟨1500, 0, 3⟩ scenarioHandles
        (mapUpd (fun _ => none) ⟨3, [170, 187, 204, 221, 238, 255]⟩
          (now1 + 13000000)) now2 rand3 rand4 true).act = TcAct.ok) :
    now1 + 25000000 ≤
      (tcPipeline scenarioPkt ⟨1500, 0, 3⟩ scenarioHandles
        (mapUpd (fun _ => none) ⟨3, [170, 187, 204, 221, 238, 255]⟩
          (now1 + 13000000)) now2 rand3 rand4 true).skb_tstamp := by
  have hdel : throttleDelayNs 1500 1000000 = 12000000 := by decide
  have hb2 : throttleBase (now2 + 1000000) now2 = now2 + 1000000 := by
    unfold throttleBase
    rw [if_neg (by omega)]
  have hfm : (mapUpd (fun _ => none) ⟨3, [170, 187, 204, 221, 238, 255]⟩
      (now1 + 13000000)) ⟨3, [170, 187, 204, 221, 238, 255]⟩ =
      some (now1 + 13000000) := by
    simp [mapUpd]
  have hnext : throttleNext (some (now1 + 13000000))
      (throttleBase (now2 + 1000000) now2) (throttleDelayNs 1500 1000000) =
      now1 + 25000000 := by
    show u64Mod (now1 + 13000000 + throttleDelayNs 1500 1000000) =
      now1 + 25000000
    rw [hdel]
    unfold u64Mod
    omega
  have hpipe : tcPipeline scenarioPkt ⟨1500, 0, 3⟩ scenarioHandles
      (mapUpd (fun _ => none) ⟨3, [170, 187, 204, 221, 238, 255]⟩
        (now1 + 13000000)) now2 rand3 rand4 true =
      throttle_flow ⟨1500, now2 + 1000000, 3⟩
        ⟨3, [170, 187, 204, 221, 238, 255]⟩ 1000000 now2
        (mapUpd (fun _ => none) ⟨3, [170, 187, 204, 221, 238, 255]⟩
          (now1 + 13000000)) true := by
    unfold tcPipeline
    rw [scenario_delay_stage now2 rand3 _ (by omega)]
    dsimp only []
    rw [scenario_loss_stage (now2 + 1000000) now2 rand4 _ true]
  rw [hpipe] at hok ⊢
  by_cases hc : throttleNext
      ((mapUpd (fun _ => none) ⟨3, [170, 187, 204, 221, 238, 255]⟩
        (now1 + 13000000)) ⟨3, [170, 187, 204, 221, 238, 255]⟩)
      (throttleBase (now2 + 1000000) now2) (throttleDelayNs 1500 1000000) ≤
      throttleBase (now2 + 1000000) now2
  · rw [throttle_flow_nobacklog_ok ⟨1500, now2 + 1000000, 3⟩
      ⟨3, [170, 187, 204, 221, 238, 255]⟩ 1000000 now2 _ hc]
    rw [hfm, hnext, hb2] at hc
    dsimp only []
    omega
  · by_cases hhz : TIME_HORIZON_NS ≤
        u64Sub (throttleNext
          ((mapUpd (fun _ => none) ⟨3, [170, 187, 204, 221, 238, 255]⟩
            (now1 + 13000000)) ⟨3, [170, 187, 204, 221, 238, 255]⟩)
          (throttleBase (now2 + 1000000) now2)
          (throttleDelayNs 1500 1000000)) now2
    · rw [throttle_flow_horizon_shot ⟨1500, now2 + 1000000, 3⟩
        ⟨3, [170, 187, 204, 221, 238, 255]⟩ 1000000 now2 _ true
        (by dsimp only []; omega) hhz] at hok
      dsimp only [] at hok
      exact absurd hok (by decide)
    · rw [throttle_flow_backlog_ok ⟨1500, now2 + 1000000, 3⟩
        ⟨3, [170, 187, 204, 221, 238, 255]⟩ 1000000 now2 _
        (by dsimp only []; omega) (by dsimp only []; omega)]
      dsimp only []
      rw [hfm, hnext]

/-! ## Claim theorems -/

/-- C1: the spec requires `throttle_rate_bps == 0` to mean "throttling
disabled" (continue without pacing, division never evaluated with a zero
divisor, pacing entry untouched).  The code's only guard,
`if (!throttle_rate_bps)`, tests a pointer to a field of the non-null
`val_struct` and never fires, so `throttle_flow` is reached with a zero
rate: the duration expression is evaluated with a zero divisor (undefined
behaviour in C; the BPF runtime yields 0, as does `Nat` division), and the
flow's pacing entry is written — here a flow with
`throttle_rate_bps = 0` and an empty pacing table ends up with its entry
set to 1000 and the packet continues. -/
theorem C1_zero_rate_reaches_division_and_writes_pacing :
    throttleDelayNs 1500 0 = 0 ∧
    (loss_bps (List.replicate 14 0) ⟨1500, 0, 3⟩
        (fun _ => some ⟨0, 100, 0, 0⟩) (fun _ => none) 1000 0 true).flow_map
        ⟨3, List.replicate 6 0⟩ = some 1000 ∧
    (loss_bps (List.replicate 14 0) ⟨1500, 0, 3⟩
        (fun _ => some ⟨0, 100, 0, 0⟩) (fun _ => none) 1000 0 true).act =
      TcAct.ok := by
  refine ⟨by decide, ?_, ?_⟩ <;> decide

/-- C6: for a packet with a parseable header, the loss logic of `loss_bps`:
no impairment entry means continue with everything untouched; a zero
`loss_rate` means the loss stage does not drop and execution continues
into the throttle logic; a positive `loss_rate` draws
`rand % PKT_LOSS_SCOPE ∈ [0, 10000)` and drops (terminating the run with
the pacing table untouched) exactly when the draw is below `loss_rate`. -/
theorem C6_loss_stage (pkt : List Nat) (skb : Skb)
    (mac_handle : FlowKey → Option HandleEmu)
    (flow_map : FlowKey → Option Nat) (now rand_loss : Nat) (update_ok : Bool)
    (hpkt : parse_ethhdr_ok pkt = true) :
    (mac_handle ⟨skb.ifindex, ethSource pkt⟩ = none →
      loss_bps pkt skb mac_handle flow_map now rand_loss update_ok =
        ⟨TcAct.ok, skb.tstamp, flow_map⟩) ∧
    (∀ v, mac_handle ⟨skb.ifindex, ethSource pkt⟩ = some v →
      (rand_loss % PKT_LOSS_SCOPE < PKT_LOSS_SCOPE) ∧
      (0 < v.loss_rate →
        (loss_drop v.loss_rate rand_loss = true ↔
          rand_loss % PKT_LOSS_SCOPE < v.loss_rate)) ∧
      (v.loss_rate = 0 → loss_drop v.loss_rate rand_loss = false) ∧
      (loss_drop v.loss_rate rand_loss = true →
        loss_bps pkt skb mac_handle flow_map now rand_loss update_ok =
          ⟨TcAct.shot, skb.tstamp, flow_map⟩) ∧
      (loss_drop v.loss_rate rand_loss = false →
        loss_bps pkt skb mac_handle flow_map now rand_loss update_ok =
          throttle_flow skb ⟨skb.ifindex, ethSource pkt⟩ v.throttle_rate_bps
            now flow_map update_ok)) := by
  constructor
  · intro hnone
    unfold loss_bps
    simp [hpkt, hnone]
  · intro v hv
    refine ⟨?_, ?_, ?_, ?_, ?_⟩
    · exact Nat.mod_lt _ (by decide)
    · intro hpos
      unfold loss_drop
      simp [hpos]
    · intro hz
      unfold loss_drop
      simp [hz]
    · intro hdrop
      unfold loss_bps
      simp [hpkt, hv, hdrop]
    · intro hnodrop
      unfold loss_bps
      simp [hpkt, hv, hnodrop]

/-- C6 witness: a concrete flow with `loss_rate = 0` continues untouched. -/
theorem C6_loss_stage_witness :
    loss_bps (List.replicate 14 0) ⟨100, 0, 3⟩ (fun _ => none)
      (fun _ => none) 0 0 true = ⟨TcAct.ok, 0, fun _ => none⟩ :=
  (C6_loss_stage (List.replicate 14 0) ⟨100, 0, 3⟩ (fun _ => none)
    (fun _ => none) 0 0 true (by decide)).1 rfl

/-- C7: disposition of `xdp_l2_fwd_prog` on a well-formed ethernet frame:
a set low-order bit of the first destination byte floods to every egress
port except the ingress one; otherwise a hit in `mac_table` redirects to
exactly the stored egress ifindex; otherwise the packet is passed to the
kernel (not dropped). -/
theorem C7_forwarding_disposition (pkt : List Nat)
    (mac_table : List Nat → Option Nat) (tx_ports : List Nat) (ingress : Nat)
    (hlen : 14 ≤ pkt.length) :
    (pkt.headD 0 % 2 = 1 →
      xdp_l2_fwd_prog pkt mac_table = XdpAction.floodExcludeIngress ∧
      ∀ p, p ∈ floodTargets tx_ports ingress ↔ p ∈ tx_ports ∧ p ≠ ingress) ∧
    (¬ pkt.headD 0 % 2 = 1 →
      (∀ e, mac_table (ethDest pkt) = some e →
        xdp_l2_fwd_prog pkt mac_table = XdpAction.redirect e) ∧
      (mac_table (ethDest pkt) = none →
        xdp_l2_fwd_prog pkt mac_table = XdpAction.pass)) := by
  have hlt : ¬ pkt.length < 14 := by omega
  constructor
  · intro hb
    constructor
    · unfold xdp_l2_fwd_prog
      rw [if_neg hlt, if_pos hb]
    · intro p
      unfold floodTargets
      simp [List.mem_filter]
  · intro hb
    constructor
    · intro e he
      unfold xdp_l2_fwd_prog
      rw [if_neg hlt, if_neg hb, he]
    · intro he
      unfold xdp_l2_fwd_prog
      rw [if_neg hlt, if_neg hb, he]

/-- C7 witness: a broadcast frame floods; port 5 is delivered to, ingress
port 7 is excluded. -/
theorem C7_forwarding_disposition_witness :
    xdp_l2_fwd_prog (List.replicate 14 255) (fun _ => none) =
      XdpAction.floodExcludeIngress ∧
    (5 ∈ floodTargets [5, 7] 7 ↔ 5 ∈ [5, 7] ∧ 5 ≠ 7) :=
  ⟨((C7_forwarding_disposition (List.replicate 14 255) (fun _ => none)
      [5, 7] 7 (by decide)).1 (by decide)).1,
   ((C7_forwarding_disposition (List.replicate 14 255) (fun _ => none)
      [5, 7] 7 (by decide)).1 (by decide)).2 5⟩

/-- C8: a packet whose data cannot hold a 14-byte ethernet header is dropped
by the forwarding entry point and by both impairment entry points, with
the verdict independent of all table contents (no lookup can influence
it) and the pacing table returned unchanged (nothing written). -/
theorem C8_malformed_drop_before_lookup (pkt : List Nat) (skb : Skb)
    (h : pkt.length < 14) :
    (∀ mt : List Nat → Option Nat, xdp_l2_fwd_prog pkt mt = XdpAction.drop) ∧
    (∀ (mh : FlowKey → Option HandleEmu) (fm : FlowKey → Option Nat)
        (now rand : Nat),
      delay_jitter pkt skb mh fm now rand = ⟨TcAct.shot, skb.tstamp, fm⟩) ∧
    (∀ (mh : FlowKey → Option HandleEmu) (fm : FlowKey → Option Nat)
        (now rand : Nat) (upd : Bool),
      loss_bps pkt skb mh fm now rand upd = ⟨TcAct.shot, skb.tstamp, fm⟩) := by
  have hp : parse_ethhdr_ok pkt = false := by
    simp only [parse_ethhdr_ok, decide_eq_false_iff_not]
    omega
  refine ⟨?_, ?_, ?_⟩
  · intro mt
    unfold xdp_l2_fwd_prog
    simp [h]
  · intro mh fm now rand
    unfold delay_jitter
    simp [hp]
  · intro mh fm now rand upd
    unfold loss_bps
    simp [hp]

/-- C8 witness: the empty packet is dropped everywhere, maps untouched. -/
theorem C8_malformed_drop_before_lookup_witness :
    xdp_l2_fwd_prog [] (fun _ => some 9) = XdpAction.drop ∧
    delay_jitter [] ⟨60, 0, 1⟩ (fun _ => some ⟨1, 2, 3, 4⟩)
      (fun _ => some 5) 10 11 = ⟨TcAct.shot, 0, fun _ => some 5⟩ ∧
    loss_bps [] ⟨60, 0, 1⟩ (fun _ => some ⟨1, 2, 3, 4⟩)
      (fun _ => some 5) 10 11 true = ⟨TcAct.shot, 0, fun _ => some 5⟩ :=
  ⟨(C8_malformed_drop_before_lookup [] ⟨60, 0, 1⟩ (by decide)).1 _,
   (C8_malformed_drop_before_lookup [] ⟨60, 0, 1⟩ (by decide)).2.1 _ _ 10 11,
   (C8_malformed_drop_before_lookup [] ⟨60, 0, 1⟩ (by decide)).2.2 _ _ 10 11 true⟩

/-- C9 (counterexample): the forwarding table actually used by
`xdp_l2_fwd_prog` is `mac_table` with `max_entries` 65,535, so it is not
bounded by 1,024 entries as the claim states. -/
theorem C9_forwarding_capacity_counterexample :
    ¬ mac_table_max_entries ≤ 1024 := by decide

/-- C9 (amended): the fixed capacities the source declares: the forwarding
table `mac_table` holds at most 65,535 entries (1,024 is the capacity of
the `tx_ports` egress devmap and of the `fdb_map` declaration that
`xdp_l2_fwd_prog` does not use); the flow-impairment table
`MAC_HANDLE_EMU` and the pacing table `flow_map` hold at most 65,535
entries each. -/
theorem C9_capacities :
    mac_table_max_entries = 65535 ∧ MAC_HANDLE_EMU_max_entries = 65535 ∧
    flow_map_max_entries = 65535 ∧ tx_ports_max_entries = 1024 ∧
    fdb_map_max_entries = 1024 :=
  ⟨rfl, rfl, rfl, rfl, rfl⟩

/-- C2 (counterexample): in the no-backlog branch of `throttle_flow` the
return value of `bpf_map_update_elem` is ignored, so a failed PacingEntry
write there (`update_ok = false`) lets the packet continue
(`TC_ACT_OK`) with the stale entry still in place, instead of dropping. -/
theorem C2_nobacklog_write_failure_counterexample :
    (throttle_flow ⟨1, 0, 3⟩ ⟨3, List.replicate 6 0⟩ 8000000000 1000000
        (fun _ => some 0) false).act = TcAct.ok ∧
    (throttle_flow ⟨1, 0, 3⟩ ⟨3, List.replicate 6 0⟩ 8000000000 1000000
        (fun _ => some 0) false).flow_map ⟨3, List.replicate 6 0⟩ =
      some 0 := by
  constructor <;> decide

/-- C2 (amended): a failed PacingEntry write drops the packet only in the
backlog branch (there the map is returned unchanged); in the no-backlog
(idle-credit re-baseline) branch the write's return value is ignored, so
on failure the packet continues with the pacing table unchanged. -/
theorem C2_pacing_write_failure (skb : Skb) (key : FlowKey) (rate now : Nat)
    (fm : FlowKey → Option Nat) :
    (throttleBase skb.tstamp now <
        throttleNext (fm key) (throttleBase skb.tstamp now)
          (throttleDelayNs skb.len rate) →
      u64Sub (throttleNext (fm key) (throttleBase skb.tstamp now)
          (throttleDelayNs skb.len rate)) now < TIME_HORIZON_NS →
      throttle_flow skb key rate now fm false =
        ⟨TcAct.shot, skb.tstamp, fm⟩) ∧
    (throttleNext (fm key) (throttleBase skb.tstamp now)
          (throttleDelayNs skb.len rate) ≤ throttleBase skb.tstamp now →
      throttle_flow skb key rate now fm false =
        ⟨TcAct.ok, skb.tstamp, fm⟩) := by
  constructor
  · intro hbl hh
    unfold throttle_flow
    rw [if_neg (by omega), if_neg (by omega)]
    rfl
  · intro hnb
    unfold throttle_flow
    rw [if_pos hnb]
    rfl

/-- C2 witness: both branches of the amended statement at concrete inputs
(backlog with a 12-second backlog would exceed the horizon, so a mild
backlog is used for the first part; an idle flow for the second). -/
theorem C2_pacing_write_failure_witness :
    throttle_flow ⟨1500, 0, 3⟩ ⟨3, List.replicate 6 0⟩ 1000000 0
        (fun _ => some 0) false =
      ⟨TcAct.shot, 0, fun _ => some 0⟩ ∧
    throttle_flow ⟨1, 0, 3⟩ ⟨3, List.replicate 6 0⟩ 8000000000 1000000
        (fun _ => some 0) false =
      ⟨TcAct.ok, 0, fun _ => some 0⟩ :=
  ⟨(C2_pacing_write_failure ⟨1500, 0, 3⟩ ⟨3, List.replicate 6 0⟩ 1000000 0
      (fun _ => some 0)).1 (by decide) (by decide),
   (C2_pacing_write_failure ⟨1, 0, 3⟩ ⟨3, List.replicate 6 0⟩ 8000000000
      1000000 (fun _ => some 0)).2 (by decide)⟩

/-- C3 (counterexample): a nonzero but stale scheduled-departure timestamp
(here 5, with `now = 1000`) IS used as the base by
`inject_delay_jitter`: with delay 7 (= 70,000 ns) and no jitter the new
timestamp is 5 + 70,000 = 70,005, not the 1000 + 70,000 = 71,000 the
claim's "nonzero and itself already in the future, otherwise now" base
would give. -/
theorem C3_stale_base_counterexample :
    inject_delay_jitter 5 7 0 1000 0 = 70005 ∧
    (70005 : Nat) ≠ 1000 + 70000 := by
  constructor <;> decide

/-- C3 (amended): the new scheduled-departure timestamp equals (the packet's
current timestamp if it is nonzero — whether or not it lies in the future
— otherwise `now`) plus the converted delay plus the jitter offset;
there is no staleness check in `inject_delay_jitter`. -/
theorem C3_delay_jitter_base (ts delay jitter now rand : Nat)
    (h1 : (fixedToNs jitter : Int) ≤
      (if ts = 0 then (now : Int) else (ts : Int)) + (fixedToNs delay : Int))
    (h2 : (if ts = 0 then (now : Int) else (ts : Int)) + (fixedToNs delay : Int)
      + (fixedToNs jitter : Int) < 2 ^ 64) :
    (inject_delay_jitter ts delay jitter now rand : Int) =
      (if ts = 0 then (now : Int) else (ts : Int)) + (fixedToNs delay : Int)
        + jitterOffset jitter rand :=
  inject_delay_jitter_eq ts delay jitter now rand h1 h2

/-- C3 witness: the stale-timestamp instance (ts = 5, now = 1000). -/
theorem C3_delay_jitter_base_witness :
    (inject_delay_jitter 5 7 0 1000 0 : Int) =
      (if (5 : Nat) = 0 then (1000 : Int) else (5 : Int)) +
        (fixedToNs 7 : Int) + jitterOffset 0 0 :=
  C3_delay_jitter_base 5 7 0 1000 0 (by norm_num [fixedToNs, u32Mod,
    NS_PER_0_0_1_MS]) (by norm_num [fixedToNs, u32Mod, NS_PER_0_0_1_MS])

/-- C4: in the backlog branch, when the candidate departure time is at least
the 2-second horizon away from `now`, `throttle_flow` drops the packet
(`TC_ACT_SHOT`) and both the pacing table and the packet timestamp are
returned unchanged, so a later packet still computes off the last
successfully stored timestamp. -/
theorem C4_horizon_drop (skb : Skb) (key : FlowKey) (rate now : Nat)
    (fm : FlowKey → Option Nat) (upd : Bool)
    (hb : throttleBase skb.tstamp now <
      throttleNext (fm key) (throttleBase skb.tstamp now)
        (throttleDelayNs skb.len rate))
    (hn : throttleNext (fm key) (throttleBase skb.tstamp now)
      (throttleDelayNs skb.len rate) < 2 ^ 64)
    (hh : TIME_HORIZON_NS ≤
      throttleNext (fm key) (throttleBase skb.tstamp now)
        (throttleDelayNs skb.len rate) - now) :
    throttle_flow skb key rate now fm upd = ⟨TcAct.shot, skb.tstamp, fm⟩ := by
  have hnow : now ≤ throttleBase skb.tstamp now := by
    unfold throttleBase
    split <;> omega
  have hsub : u64Sub (throttleNext (fm key) (throttleBase skb.tstamp now)
      (throttleDelayNs skb.len rate)) now =
      throttleNext (fm key) (throttleBase skb.tstamp now)
        (throttleDelayNs skb.len rate) - now :=
    u64Sub_eq_sub (by omega) hn
  unfold throttle_flow
  rw [if_neg (by omega), hsub, if_pos hh]

/-- C4 witness: a 1500-byte packet at 1,000 bps needs 12 seconds on the
wire; with an empty pacing table and `now = 0` the candidate next
departure is 12 seconds away, beyond the 2-second horizon, so the packet
is dropped and the table stays empty. -/
theorem C4_horizon_drop_witness :
    throttle_flow ⟨1500, 0, 3⟩ ⟨3, List.replicate 6 0⟩ 1000 0
        (fun _ => none) true =
      ⟨TcAct.shot, 0, fun _ => none⟩ :=
  C4_horizon_drop ⟨1500, 0, 3⟩ ⟨3, List.replicate 6 0⟩ 1000 0
    (fun _ => none) true (by decide) (by decide) (by decide)

/-- C5: for any random draw the jitter offset lies in
`[−jitter_ns, +jitter_ns]`, and a packet arriving with an unset (zero)
timestamp leaves `inject_delay_jitter` with a scheduled departure whose
distance from `now` lies in `[delay_ns − jitter_ns, delay_ns + jitter_ns]`
(`delay_ns`/`jitter_ns` being the 0.01 ms → ns conversions `fixedToNs`). -/
theorem C5_jitter_and_delay_range (delay jitter now rand : Nat)
    (h1 : (fixedToNs jitter : Int) ≤ (now : Int) + (fixedToNs delay : Int))
    (h2 : (now : Int) + (fixedToNs delay : Int) + (fixedToNs jitter : Int)
      < 2 ^ 64) :
    (-(fixedToNs jitter : Int) ≤ jitterOffset jitter rand ∧
      jitterOffset jitter rand ≤ (fixedToNs jitter : Int)) ∧
    ((fixedToNs delay : Int) - (fixedToNs jitter : Int) ≤
        (inject_delay_jitter 0 delay jitter now rand : Int) - (now : Int) ∧
      (inject_delay_jitter 0 delay jitter now rand : Int) - (now : Int) ≤
        (fixedToNs delay : Int) + (fixedToNs jitter : Int)) := by
  obtain ⟨hl, hr⟩ := jitterOffset_bounds jitter rand
  have heq := inject_delay_jitter_eq 0 delay jitter now rand
    (by simpa using h1) (by simpa using h2)
  simp only [reduceIte] at heq
  refine ⟨⟨hl, hr⟩, ?_, ?_⟩ <;> omega

/-- C5 witness: delay 100 (1 ms), jitter 50 (0.5 ms), a concrete draw. -/
theorem C5_jitter_and_delay_range_witness :
    (-(fixedToNs 50 : Int) ≤ jitterOffset 50 123456789 ∧
      jitterOffset 50 123456789 ≤ (fixedToNs 50 : Int)) ∧
    ((fixedToNs 100 : Int) - (fixedToNs 50 : Int) ≤
        (inject_delay_jitter 0 100 50 1000000000 123456789 : Int)
          - (1000000000 : Int) ∧
      (inject_delay_jitter 0 100 50 1000000000 123456789 : Int)
          - (1000000000 : Int) ≤
        (fixedToNs 100 : Int) + (fixedToNs 50 : Int)) :=
  C5_jitter_and_delay_range 100 50 1000000000 123456789
    (by norm_num [fixedToNs, u32Mod, NS_PER_0_0_1_MS])
    (by norm_num [fixedToNs, u32Mod, NS_PER_0_0_1_MS])

/-- C10: `throttle_flow` computes the transmission duration as
`len × 8 × 1e9 / rate` in truncating integer division
(`throttleDelayNs`) — for 1500 bytes at 1,000,000 bps exactly
12,000,000 ns.  In the concrete scenario (interface 3, source
AA:BB:CC:DD:EE:FF, rate 1,000,000 bps, delay 100 = 1 ms, loss 0,
jitter 0), a first 1500-byte packet through the pipeline is scheduled at
`now1 + 13,000,000` ns — no earlier than `now1 + 1 ms` — and a second
packet of the same flow, whenever it is not dropped, is scheduled at
least 12,000,000 ns after the first. -/
theorem C10_throttle_scenario (now1 now2 rand1 rand2 rand3 rand4 : Nat)
    (h1 : now1 + 25000000 < 2 ^ 64) (h2 : now2 + 13000000 < 2 ^ 64) :
    throttleDelayNs 1500 1000000 = 12000000 ∧
    (tcPipeline scenarioPkt ⟨1500, 0, 3⟩ scenarioHandles (fun _ => none)
        now1 rand1 rand2 true).act = TcAct.ok ∧
    (tcPipeline scenarioPkt ⟨1500, 0, 3⟩ scenarioHandles (fun _ => none)
        now1 rand1 rand2 true).skb_tstamp = now1 + 13000000 ∧
    now1 + 1000000 ≤ (tcPipeline scenarioPkt ⟨1500, 0, 3⟩ scenarioHandles
        (fun _ => none) now1 rand1 rand2 true).skb_tstamp ∧
    ((tcPipeline scenarioPkt ⟨1500, 0, 3⟩ scenarioHandles
        (tcPipeline scenarioPkt ⟨1500, 0, 3⟩ scenarioHandles (fun _ => none)
          now1 rand1 rand2 true).flow_map now2 rand3 rand4 true).act =
        TcAct.ok →
      (tcPipeline scenarioPkt ⟨1500, 0, 3⟩ scenarioHandles (fun _ => none)
          now1 rand1 rand2 true).skb_tstamp + 12000000 ≤
        (tcPipeline scenarioPkt ⟨1500, 0, 3⟩ scenarioHandles
          (tcPipeline scenarioPkt ⟨1500, 0, 3⟩ scenarioHandles
            (fun _ => none) now1 rand1 rand2 true).flow_map
          now2 rand3 rand4 true).skb_tstamp) := by
  have hf := scenario_first now1 rand1 rand2 h1
  refine ⟨by decide, ?_, ?_, ?_, ?_⟩
  · rw [hf]
  · rw [hf]
  · rw [hf]
    dsimp only []
    omega
  · intro hok
    rw [hf] at hok ⊢
    dsimp only [] at hok ⊢
    have hs := scenario_second now1 now2 rand3 rand4 h1 h2 hok
    omega

/-- C10 witness: the scenario evaluated at `now1 = 0`, `now2 = 0`. -/
theorem C10_throttle_scenario_witness :
    throttleDelayNs 1500 1000000 = 12000000 ∧
    (tcPipeline scenarioPkt ⟨1500, 0, 3⟩ scenarioHandles (fun _ => none)
        0 0 0 true).act = TcAct.ok ∧
    (tcPipeline scenarioPkt ⟨1500, 0, 3⟩ scenarioHandles (fun _ => none)
        0 0 0 true).skb_tstamp = 0 + 13000000 ∧
    0 + 1000000 ≤ (tcPipeline scenarioPkt ⟨1500, 0, 3⟩ scenarioHandles
        (fun _ => none) 0 0 0 true).skb_tstamp ∧
    ((tcPipeline scenarioPkt ⟨1500, 0, 3⟩ scenarioHandles
        (tcPipeline scenarioPkt ⟨1500, 0, 3⟩ scenarioHandles (fun _ => none)
          0 0 0 true).flow_map 0 0 0 true).act = TcAct.ok →
      (tcPipeline scenarioPkt ⟨1500, 0, 3⟩ scenarioHandles (fun _ => none)
          0 0 0 true).skb_tstamp + 12000000 ≤
        (tcPipeline scenarioPkt ⟨1500, 0, 3⟩ scenarioHandles
          (tcPipeline scenarioPkt ⟨1500, 0, 3⟩ scenarioHandles
            (fun _ => none) 0 0 0 true).flow_map 0 0 0 true).skb_tstamp) :=
  C10_throttle_scenario 0 0 0 0 0 0 (by norm_num) (by norm_num)

end EmuNet
